import Mathlib

/-!
Verification of the eBay book-value searcher (`src/bookvalue.py`).

The program drives a browser session row by row.  We embed the observable
behaviour of `Worker.run`, `Worker.perform_search` and
`Worker.get_aggregate_value` as pure functions producing an explicit trace of
events, with the browser modelled as an oracle mapping a query string to the
page it yields.  `EbaySearcher.process_file` and `EbaySearcher.export_results`
are embedded with the pandas outcome (which exception, if any, the parse
raised) supplied as a parameter.
-/

/-- One observable action of the worker thread:
a browser navigation (`self.driver.get(url)`), an emitted log line
(`self.log_message.emit`), an emitted result row (`self.update_result.emit`),
a randomized sleep drawn uniformly from `[lo, hi]` seconds (the
`time.sleep(random.uniform(lo, hi))` call, together with its accompanying
"Sleeping for ..." log line whose text contains the random draw), or the
`search_complete` signal. -/
inductive Event where
  | navigate (url : String)
  | log (msg : String)
  | result (row : List String)
  | sleep (lo hi : Nat)
  | complete
deriving DecidableEq, Repr

/-- `true` exactly on `Event.result` rows. -/
def Event.isRes : Event → Bool
  | .result _ => true
  | _ => false

/-- `true` exactly on `Event.navigate` events. -/
def Event.isNav : Event → Bool
  | .navigate _ => true
  | _ => false

/-- `true` exactly on `Event.sleep` events. -/
def Event.isSleep : Event → Bool
  | .sleep _ _ => true
  | _ => false

/-- `true` exactly on `Event.complete`. -/
def Event.isCompl : Event → Bool
  | .complete => true
  | _ => false

/-- What the marketplace page for one query shows.  `containerLoads` is
whether `div.aggregates` becomes present within the 19-second wait; each field
is `some text` when the corresponding `metric-value` element becomes visible
within its 1-second wait, `none` when that wait times out. -/
structure Page where
  containerLoads : Bool
  avgPrice : Option String
  priceRange : Option String
  avgShipping : Option String
  totalSellers : Option String
deriving DecidableEq, Repr

/-- One input row `(title, author, isbn)` as unpacked by `Worker.run`. -/
structure BookQuery where
  title : String
  author : String
  isbn : String
deriving DecidableEq, Repr

/-- The search URL built in `Worker.perform_search`. -/
def searchUrl (q : String) : String :=
  "https://www.ebay.com/sh/research?marketplace=EBAY-US" ++
  "&keywords=" ++ q ++ "&dayRange=365&endDate=1724798549762" ++
  "&startDate=1693262549762&categoryId=0&offset=0&limit=50" ++
  "&tabName=SOLD&tz=America%2FNew_York"

/-- XPath used for the average-sold-price metric. -/
def xpathAvgPrice : String :=
  "//section[contains(., \x27Avg sold price\x27)]/div[@class=\x27metric-value\x27]"

/-- XPath used for the sold-price-range metric. -/
def xpathPriceRange : String :=
  "//section[contains(., \x27Sold price range\x27)]/div[@class=\x27metric-value\x27]"

/-- XPath used for the average-shipping metric. -/
def xpathAvgShipping : String :=
  "//section[contains(., \x27Avg shipping\x27)]/div[@class=\x27metric-value\x27]"

/-- XPath used for the total-sellers metric. -/
def xpathTotalSellers : String :=
  "//section[contains(., \x27Total sellers\x27)]/div[@class=\x27metric-value\x27]"

/-- Python `str.strip()` with no argument: remove whitespace from both ends
of the string. -/
def strip (s : String) : String :=
  ⟨((s.data.dropWhile Char.isWhitespace).reverse.dropWhile
      Char.isWhitespace).reverse⟩

/-- `Worker.get_aggregate_value`: wait up to 1 second for the element at
`xpath`; on success return `element.text.strip()`, on `TimeoutException`
sleep a random 3-9 seconds, log that the element was not found, and return
the empty string.  The element outcome (visible text or timeout) is the
`field` argument.  Returns the value together with the emitted events. -/
def get_aggregate_value (xpath : String) (field : Option String) :
    String × List Event :=
  match field with
  | some t => (strip t, [])
  | none =>
      ("", [Event.sleep 3 9,
            Event.log ("Could not find element with xpath: " ++ xpath ++
                       ". Returning empty value.")])

/-- `Worker.perform_search`: navigate to the search URL for `q`, wait for the
aggregates container, extract the four metrics, and emit a result row when at
least one extracted value is a non-empty (truthy) string.  `page` is what the
browser yields for this query.  Returns the boolean the Python function
returns, paired with the trace of events. -/
def perform_search (page : Page) (q title author isbn : String) :
    Bool × List Event :=
  let nav : List Event := [Event.navigate (searchUrl q),
                           Event.log ("Navigating to URL: " ++ searchUrl q)]
  if page.containerLoads then
    let a := get_aggregate_value xpathAvgPrice page.avgPrice
    let r := get_aggregate_value xpathPriceRange page.priceRange
    let s := get_aggregate_value xpathAvgShipping page.avgShipping
    let t := get_aggregate_value xpathTotalSellers page.totalSellers
    let extracted :=
      Event.log "Aggregates section found." ::
        (a.2 ++ r.2 ++ s.2 ++ t.2 ++
         [Event.log ("Data extracted: Avg Price: " ++ a.1 ++
                     ", Price Range: " ++ r.1 ++ ", Avg Shipping: " ++ s.1 ++
                     ", Total Sellers: " ++ t.1)])
    if a.1 = "" ∧ r.1 = "" ∧ s.1 = "" ∧ t.1 = "" then
      (false, nav ++ extracted ++
        [Event.log ("No valid data found for " ++ q ++ ". Skipping.")])
    else
      (true, nav ++ extracted ++
        [Event.log ("Found results for " ++ title ++ " by " ++ author ++
                    " (ISBN: " ++ isbn ++ ")"),
         Event.result [title, author, isbn, a.1, r.1, s.1, t.1]])
  else
    (false, nav ++
      [Event.log ("No results found for " ++ q ++ ". Skipping.")])

/-- The body of one iteration of the `for entry in self.data` loop in
`Worker.run` (after the `_running` check): skip a fully empty row, otherwise
query with the ISBN when truthy else `f"{title} {author}"`, retry once with
`f"{title} {author}"` when the first attempt returned `False`, then sleep a
random 15-40 seconds.  `env` maps a query string to the page it yields. -/
def processEntry (env : String → Page) (b : BookQuery) : List Event :=
  if b.title = "" ∧ b.author = "" ∧ b.isbn = "" then
    [Event.log "Skipping empty line."]
  else
    let fallbackQ := b.title ++ " " ++ b.author
    let q := if b.isbn ≠ "" then b.isbn else fallbackQ
    let first := perform_search (env q) q b.title b.author b.isbn
    let attempts :=
      if first.1 then first.2
      else first.2 ++
        (perform_search (env fallbackQ) fallbackQ b.title b.author b.isbn).2
    Event.log ("Processing: " ++ b.title ++ ", " ++ b.author ++
               ", ISBN: " ++ b.isbn) ::
      (attempts ++ [Event.sleep 15 40])

/-- The `for entry in self.data` loop of `Worker.run`.  `running i` is the
value of `self._running` observed at the top of iteration `i` (the flag is
set from the GUI thread by `Worker.stop`). -/
def runLoop (env : String → Page) (running : Nat → Bool) :
    List BookQuery → Nat → List Event
  | [], _ => []
  | b :: rest, i =>
      if running i then
        processEntry env b ++ runLoop env running rest (i + 1)
      else
        [Event.log "Search cancelled."]

/-- `Worker.run`: iterate the loop from index 0, then emit `search_complete`
exactly once. -/
def workerRun (env : String → Page) (running : Nat → Bool)
    (data : List BookQuery) : List Event :=
  runLoop env running data 0 ++ [Event.complete]

/-- A parsed spreadsheet as `pd.read_excel` returns it: named columns and
rows of cells, where `none` is a NaN (missing) cell. -/
structure DataFrame where
  columns : List String
  rows : List (List (Option String))
deriving DecidableEq, Repr

/-- The cell of `row` under column `c`, as selection by column name does it:
position of `c` in the column list, then that position in the row. -/
def DataFrame.cell (df : DataFrame) (row : List (Option String)) (c : String) :
    Option String :=
  match df.columns.indexOf? c with
  | some j => (row.get? j).getD none
  | none => none

/-- `df[[\x27Title\x27, \x27Author\x27, \x27ISBN\x27]].fillna(\x27\x27).values.tolist()`:
the three named columns of each row, NaN replaced by the empty string. -/
def loadedRows (df : DataFrame) : List BookQuery :=
  df.rows.map fun r =>
    ⟨(df.cell r "Title").getD "", (df.cell r "Author").getD "",
     (df.cell r "ISBN").getD ""⟩

/-- Which outcome `pd.read_excel(file_path)` (and the subsequent DataFrame
operations) had: one of the exceptions the `try` block distinguishes, or a
successfully parsed `DataFrame`. -/
inductive ParseOutcome where
  | fileNotFound
  | emptyDataError
  | valueError
  | keyError (msg : String)
  | attributeError (msg : String)
  | unexpectedError (msg : String)
  | ok (df : DataFrame)
deriving DecidableEq, Repr

/-- `true` exactly on the outcomes caught by the first four `except` clauses
of `EbaySearcher.process_file` (missing file, empty file, wrong format,
DataFrame key/attribute errors). -/
def ParseOutcome.expectedErr : ParseOutcome → Bool
  | .fileNotFound | .emptyDataError | .valueError
  | .keyError _ | .attributeError _ => true
  | _ => false

/-- `true` exactly on the outcome reaching the final `except Exception`
clause. -/
def ParseOutcome.unexpectedErr : ParseOutcome → Bool
  | .unexpectedError _ => true
  | _ => false

/-- Result of `EbaySearcher.process_file`: the value of `self.data`
afterwards, the log lines produced, and whether the exception was
re-raised. -/
structure ParseEffect where
  data : List BookQuery
  logs : List String
  raised : Bool
deriving DecidableEq, Repr

/-- `EbaySearcher.process_file`: on a successful parse, require the three
columns (logging and keeping the old data when one is missing), otherwise
load the rows; each expected exception is caught and logged; an unexpected
exception is logged and re-raised.  `cur` is `self.data` on entry. -/
def process_file (filePath : String) (outcome : ParseOutcome)
    (cur : List BookQuery) : ParseEffect :=
  match outcome with
  | .ok df =>
      if "Title" ∉ df.columns ∨ "Author" ∉ df.columns ∨ "ISBN" ∉ df.columns then
        ⟨cur, ["Excel file must contain \x27Title\x27, \x27Author\x27, and \x27ISBN\x27 columns."],
         false⟩
      else
        let d := loadedRows df
        ⟨d, ["Loaded " ++ toString d.length ++ " rows from the file."], false⟩
  | .fileNotFound =>
      ⟨cur, ["File not found: " ++ filePath], false⟩
  | .emptyDataError =>
      ⟨cur, ["The file is empty. Please select a non-empty Excel file."], false⟩
  | .valueError =>
      ⟨cur, ["Invalid file format. Please select a valid Excel file."], false⟩
  | .keyError m =>
      ⟨cur, ["Data processing error: " ++ m], false⟩
  | .attributeError m =>
      ⟨cur, ["Data processing error: " ++ m], false⟩
  | .unexpectedError m =>
      ⟨cur, ["An unexpected error occurred: " ++ m], true⟩

/-- The seven column headers of the results table and of the exported
spreadsheet. -/
def outputColumns : List String :=
  ["Title", "Author", "ISBN", "Avg Sold Price", "Sold Price Range",
   "Avg Shipping", "Total Sellers"]

/-- `EbaySearcher.export_results` up to the file dialog: read every cell of
the 7-column results table (`item.text() if item else ""`), build the
DataFrame; with zero rows, log and export nothing.  `table` is the results
table, one list of cell texts per row. -/
def export_results (table : List (List String)) :
    Option DataFrame × List String :=
  if table.length = 0 then
    (none, ["No results to export."])
  else
    (some ⟨outputColumns,
           table.map fun r => (List.range 7).map fun c => some ((r.get? c).getD "")⟩,
     [])

/-- Modelled from the spec: `df.to_excel(file_path, index=False)` is pandas
serialization, external to `src/`; the spec treats the spreadsheet sink as an
external collaborator whose round trip is faithful ("exporting a result set
to the output format and re-reading it recovers the same rows with the same
column order and string values"). -/
def to_excel (df : DataFrame) : DataFrame :=
  df

/-- Modelled from the spec: `pd.read_excel` on a file this program wrote,
external to `src/`; per the spec it recovers the serialized table with the
same column order and string values. -/
def read_excel (f : DataFrame) : DataFrame :=
  f

/-- A page whose aggregates container never appears within the wait. -/
def pageMiss : Page :=
  ⟨false, none, none, none, none⟩

/-- A browser environment in which every query times out at the container. -/
def envMiss : String → Page :=
  fun _ => pageMiss

/-- A page whose container loads with only the average-price metric
present. -/
def pageHit : Page :=
  ⟨true, some "$12.50", none, none, none⟩

/-- A browser environment in which every query yields `pageHit`. -/
def envHit : String → Page :=
  fun _ => pageHit

/-- A page whose container loads, the average-price element times out, and
only the price-range metric is present. -/
def pageRangeOnly : Page :=
  ⟨true, none, some "$5", none, none⟩

/-- The input row `("Dune", "Frank Herbert", "")`. -/
def rowDune : BookQuery :=
  ⟨"Dune", "Frank Herbert", ""⟩

/-- The input row `("", "", "9780441013593")`. -/
def rowIsbnOnly : BookQuery :=
  ⟨"", "", "9780441013593"⟩

/-- A one-row spreadsheet with the three required columns. -/
def dfSample : DataFrame :=
  ⟨["Title", "Author", "ISBN"], [[some "T", some "A", some "I"]]⟩

/-- A one-row spreadsheet missing the required ISBN column. -/
def dfNoIsbn : DataFrame :=
  ⟨["Title", "Author"], [[some "T", some "A"]]⟩

/-- A one-row results table. -/
def tableSample : List (List String) :=
  [["Dune", "Frank Herbert", "", "$12.50", "", "", ""]]

lemma mem_gav_snd {x : String} {f : Option String} {e : Event}
    (h : e ∈ (get_aggregate_value x f).2) :
    e = Event.sleep 3 9 ∨ ∃ m, e = Event.log m := by
  cases f with
  | some t => simp [get_aggregate_value] at h
  | none =>
      simp [get_aggregate_value] at h
      rcases h with h | h
      · exact Or.inl h
      · exact Or.inr ⟨_, h⟩

lemma countP_gav (p : Event → Bool) (hs : ∀ lo hi, p (Event.sleep lo hi) = false)
    (hl : ∀ m, p (Event.log m) = false) (x : String) (f : Option String) :
    ((get_aggregate_value x f).2).countP p = 0 := by
  cases f <;> simp [get_aggregate_value, List.countP_cons, hs, hl]

lemma countP_perform_search (p : Event → Bool)
    (hn : ∀ u, p (Event.navigate u) = false)
    (hl : ∀ m, p (Event.log m) = false)
    (hs : ∀ lo hi, p (Event.sleep lo hi) = false)
    (hr : ∀ r, p (Event.result r) = false)
    (pg : Page) (q t a i : String) :
    ((perform_search pg q t a i).2).countP p = 0 := by
  simp only [perform_search]
  split
  · split <;>
      simp [List.countP_append, List.countP_cons, hn, hl, hs, hr,
        countP_gav p hs hl]
  · simp [List.countP_append, List.countP_cons, hn, hl]

lemma perform_search_countP_nav (pg : Page) (q t a i : String) :
    ((perform_search pg q t a i).2).countP Event.isNav = 1 := by
  simp only [perform_search]
  split
  · split <;>
      simp [List.countP_append, List.countP_cons, Event.isNav,
        countP_gav Event.isNav (fun _ _ => rfl) (fun _ => rfl)]
  · simp [List.countP_append, List.countP_cons, Event.isNav]

lemma perform_search_countP_res (pg : Page) (q t a i : String) :
    ((perform_search pg q t a i).2).countP Event.isRes =
      if (perform_search pg q t a i).1 then 1 else 0 := by
  simp only [perform_search]
  split
  · split <;>
      simp [List.countP_append, List.countP_cons, Event.isRes,
        countP_gav Event.isRes (fun _ _ => rfl) (fun _ => rfl)]
  · simp [List.countP_append, List.countP_cons, Event.isRes]

lemma countP_processEntry (p : Event → Bool)
    (hn : ∀ u, p (Event.navigate u) = false)
    (hl : ∀ m, p (Event.log m) = false)
    (hs : ∀ lo hi, p (Event.sleep lo hi) = false)
    (hr : ∀ r, p (Event.result r) = false)
    (env : String → Page) (b : BookQuery) :
    (processEntry env b).countP p = 0 := by
  simp only [processEntry]
  split
  · simp [List.countP_cons, hl]
  · split <;> split <;>
      simp [List.countP_append, List.countP_cons, hl, hs,
        countP_perform_search p hn hl hs hr]

lemma countP_runLoop (p : Event → Bool)
    (hn : ∀ u, p (Event.navigate u) = false)
    (hl : ∀ m, p (Event.log m) = false)
    (hs : ∀ lo hi, p (Event.sleep lo hi) = false)
    (hr : ∀ r, p (Event.result r) = false)
    (env : String → Page) (running : Nat → Bool) :
    ∀ (data : List BookQuery) (i : Nat),
      (runLoop env running data i).countP p = 0 := by
  intro data
  induction data with
  | nil => intro i; simp [runLoop]
  | cons b rest ih =>
      intro i
      simp only [runLoop]
      split
      · simp [List.countP_append, ih,
          countP_processEntry p hn hl hs hr]
      · simp [List.countP_cons, hl]

lemma result_not_mem_gav {x : String} {f : Option String} {r : List String} :
    Event.result r ∉ (get_aggregate_value x f).2 := by
  intro h
  rcases mem_gav_snd h with h | ⟨m, h⟩ <;> simp at h

lemma perform_search_result_mem {pg : Page} {q t a i : String}
    {r : List String} (h : Event.result r ∈ (perform_search pg q t a i).2) :
    r.length = 7 ∧ r.take 3 = [t, a, i] := by
  simp only [perform_search] at h
  split at h
  · split at h
    · simp [result_not_mem_gav] at h
    · simp [result_not_mem_gav] at h
      subst h
      exact ⟨rfl, rfl⟩
  · simp at h

lemma processEntry_result_mem {env : String → Page} {b : BookQuery}
    {r : List String} (h : Event.result r ∈ processEntry env b) :
    r.length = 7 ∧ r.take 3 = [b.title, b.author, b.isbn] := by
  simp only [processEntry] at h
  split at h
  · simp at h
  · simp only [List.mem_cons, List.mem_append, List.mem_singleton] at h
    rcases h with h | h | h
    · exact absurd h (by simp)
    · split at h <;> split at h
      · exact perform_search_result_mem h
      · rcases List.mem_append.mp h with h | h <;>
          exact perform_search_result_mem h
      · exact perform_search_result_mem h
      · rcases List.mem_append.mp h with h | h <;>
          exact perform_search_result_mem h
    · exact absurd h (by simp)

lemma runLoop_result_mem {env : String → Page} {running : Nat → Bool} :
    ∀ (data : List BookQuery) (i : Nat) (r : List String),
      Event.result r ∈ runLoop env running data i →
      ∃ b ∈ data, r.length = 7 ∧ r.take 3 = [b.title, b.author, b.isbn] := by
  intro data
  induction data with
  | nil => intro i r h; simp [runLoop] at h
  | cons b rest ih =>
      intro i r h
      simp only [runLoop] at h
      split at h
      · rcases List.mem_append.mp h with h | h
        · exact ⟨b, List.mem_cons_self b rest, processEntry_result_mem h⟩
        · rcases ih (i + 1) r h with ⟨b', hb', hr'⟩
          exact ⟨b', List.mem_cons_of_mem b hb', hr'⟩
      · simp at h

lemma runLoop_cancel (env : String → Page) (running : Nat → Bool) :
    ∀ (data : List BookQuery) (i k : Nat), k < data.length →
      (∀ j, j < k → running (i + j) = true) → running (i + k) = false →
      runLoop env running data i =
        runLoop env running (data.take k) i ++ [Event.log "Search cancelled."] := by
  intro data
  induction data with
  | nil => intro i k hk _ _; simp at hk
  | cons b rest ih =>
      intro i k hk hpre hlast
      cases k with
      | zero =>
          have h0 : running i = false := by simpa using hlast
          simp [runLoop, h0]
      | succ k =>
          have h0 : running i = true := by simpa using hpre 0 (Nat.succ_pos k)
          have h1 : ∀ j, j < k → running (i + 1 + j) = true := by
            intro j hj
            have hj' := hpre (j + 1) (Nat.succ_lt_succ hj)
            rwa [show i + (j + 1) = i + 1 + j by omega] at hj'
          have h2 : running (i + 1 + k) = false := by
            rwa [show i + (k + 1) = i + 1 + k by omega] at hlast
          have h3 : k < rest.length := by simpa using Nat.lt_of_succ_lt_succ hk
          simp [runLoop, h0, List.take_succ_cons, ih (i + 1) k h3 h1 h2,
            List.append_assoc]

lemma nav_mem_perform_search (pg : Page) (q t a i : String) :
    Event.navigate (searchUrl q) ∈ (perform_search pg q t a i).2 := by
  simp only [perform_search]
  split
  · split <;> simp
  · simp

lemma range_map_getD : ∀ (r : List String) (n : Nat), r.length = n →
    (List.range n).map (fun c => (r.get? c).getD "") = r := by
  intro r
  induction r with
  | nil => intro n h; subst h; simp
  | cons x tl ih =>
      intro n h
      subst h
      simp only [List.length_cons, List.range_succ_eq_map, List.map_cons,
        List.map_map]
      exact congrArg₂ List.cons rfl (ih tl.length rfl)

set_option maxRecDepth 100000

/-- C1 (counterexample): for the row `("Dune", "Frank Herbert", "")` the
identifier is empty, so the primary query is already the title+author
concatenation; when it fails (container timeout for every query) the code
nevertheless performs a second attempt — two navigations are issued — whereas
the claim says a failed primary attempt on such a row is never followed by a
second attempt. -/
theorem fallback_despite_empty_isbn :
    rowDune.isbn = "" ∧
    (perform_search (envMiss "Dune Frank Herbert") "Dune Frank Herbert"
      "Dune" "Frank Herbert" "").1 = false ∧
    (processEntry envMiss rowDune).countP Event.isNav = 2 := by
  decide

/-- C1 (amended): for every non-skipped row, the secondary attempt is
performed if and only if the primary attempt failed, regardless of whether
the primary query was the identifier — exactly one navigation when the
primary attempt succeeds, exactly two when it fails; for a row with an empty
identifier the second attempt re-issues the same title+author query, whose
URL is always the one navigated to by a failed row's second attempt. -/
theorem retry_iff_first_attempt_failed (env : String → Page) (b : BookQuery)
    (h : ¬(b.title = "" ∧ b.author = "" ∧ b.isbn = "")) :
    ((processEntry env b).countP Event.isNav =
      if (perform_search
            (env (if b.isbn ≠ "" then b.isbn else b.title ++ " " ++ b.author))
            (if b.isbn ≠ "" then b.isbn else b.title ++ " " ++ b.author)
            b.title b.author b.isbn).1
      then 1 else 2) ∧
    ((perform_search
        (env (if b.isbn ≠ "" then b.isbn else b.title ++ " " ++ b.author))
        (if b.isbn ≠ "" then b.isbn else b.title ++ " " ++ b.author)
        b.title b.author b.isbn).1 = false →
      Event.navigate (searchUrl (b.title ++ " " ++ b.author)) ∈
        processEntry env b) := by
  obtain ⟨t, a, i⟩ := b
  constructor
  · by_cases hi : i = ""
    · subst hi
      have hg0 : ¬(t = "" ∧ a = "") := by simpa using h
      by_cases hf :
          (perform_search (env (t ++ " " ++ a)) (t ++ " " ++ a) t a "").1 = true <;>
        simp [processEntry, hg0, hf, List.countP_append, List.countP_cons,
          Event.isNav, perform_search_countP_nav]
    · by_cases hf : (perform_search (env i) i t a i).1 = true <;>
        simp [processEntry, hi, hf, List.countP_append,
          List.countP_cons, Event.isNav, perform_search_countP_nav]
  · intro hf
    by_cases hi : i = ""
    · subst hi
      have hg0 : ¬(t = "" ∧ a = "") := by simpa using h
      simp at hf
      simp [processEntry, hg0, hf, List.mem_append, nav_mem_perform_search]
    · simp [hi] at hf
      simp [processEntry, hi, hf, List.mem_append, nav_mem_perform_search]

/-- Witness for the amended C1 theorem at the concrete row
`("Dune", "Frank Herbert", "")` in an environment where every query times
out. -/
theorem retry_iff_first_attempt_failed_witness :
    ((processEntry envMiss rowDune).countP Event.isNav =
      if (perform_search
            (envMiss (if rowDune.isbn ≠ "" then rowDune.isbn
                      else rowDune.title ++ " " ++ rowDune.author))
            (if rowDune.isbn ≠ "" then rowDune.isbn
             else rowDune.title ++ " " ++ rowDune.author)
            rowDune.title rowDune.author rowDune.isbn).1
      then 1 else 2) ∧
    ((perform_search
        (envMiss (if rowDune.isbn ≠ "" then rowDune.isbn
                  else rowDune.title ++ " " ++ rowDune.author))
        (if rowDune.isbn ≠ "" then rowDune.isbn
         else rowDune.title ++ " " ++ rowDune.author)
        rowDune.title rowDune.author rowDune.isbn).1 = false →
      Event.navigate (searchUrl (rowDune.title ++ " " ++ rowDune.author)) ∈
        processEntry envMiss rowDune) :=
  retry_iff_first_attempt_failed envMiss rowDune (by decide)

/-- C2: for every extraction attempt, the attempt succeeds — and exactly one
result row (PriceSummary) is emitted — if and only if the container loaded
and at least one of the four extracted (stripped) field values is a
non-empty string; in every other case, including the container having
appeared with all four fields empty, the attempt fails and emits nothing. -/
theorem summary_emitted_iff (pg : Page) (q t a i : String) :
    ((perform_search pg q t a i).1 = true ↔
      (pg.containerLoads = true ∧
        ((get_aggregate_value xpathAvgPrice pg.avgPrice).1 ≠ "" ∨
         (get_aggregate_value xpathPriceRange pg.priceRange).1 ≠ "" ∨
         (get_aggregate_value xpathAvgShipping pg.avgShipping).1 ≠ "" ∨
         (get_aggregate_value xpathTotalSellers pg.totalSellers).1 ≠ ""))) ∧
    ((perform_search pg q t a i).2).countP Event.isRes =
      (if (perform_search pg q t a i).1 then 1 else 0) := by
  refine ⟨?_, perform_search_countP_res pg q t a i⟩
  by_cases hc : pg.containerLoads = true
  · by_cases hall :
        (get_aggregate_value xpathAvgPrice pg.avgPrice).1 = "" ∧
        (get_aggregate_value xpathPriceRange pg.priceRange).1 = "" ∧
        (get_aggregate_value xpathAvgShipping pg.avgShipping).1 = "" ∧
        (get_aggregate_value xpathTotalSellers pg.totalSellers).1 = ""
    · simp only [perform_search]
      rw [if_pos hc, if_pos hall]
      simp [hc, hall.1, hall.2.1, hall.2.2.1, hall.2.2.2]
    · simp only [perform_search]
      rw [if_pos hc, if_neg hall]
      simp [hc]
      tauto
  · simp [perform_search, hc]

/-- C3: the `search_complete` signal is emitted exactly once on every run
(normal completion or cancellation); and whenever the running flag is
observed false at some iteration `N` within the input, the "Search
cancelled." log is emitted and the whole trace consists of the events of the
first `k ≤ N` rows (those whose check saw the flag still true), the
cancellation log, and the completion signal — so no query is issued for row
`N` or any later row. -/
theorem cancellation_stops_loop :
    (∀ (env : String → Page) (running : Nat → Bool) (data : List BookQuery),
      (workerRun env running data).countP Event.isCompl = 1) ∧
    (∀ (env : String → Page) (running : Nat → Bool) (data : List BookQuery)
       (N : Nat), N < data.length → running N = false →
      Event.log "Search cancelled." ∈ workerRun env running data ∧
      ∃ k, k ≤ N ∧ (∀ j, j < k → running j = true) ∧
        workerRun env running data =
          runLoop env running (data.take k) 0 ++
            [Event.log "Search cancelled.", Event.complete]) := by
  constructor
  · intro env running data
    rw [workerRun]
    rw [List.countP_append,
      countP_runLoop Event.isCompl (fun _ => rfl) (fun _ => rfl)
        (fun _ _ => rfl) (fun _ => rfl) env running data 0]
    rfl
  · intro env running data N hN hc
    have hex : ∃ j, running j = false := ⟨N, hc⟩
    have hkN : Nat.find hex ≤ N := Nat.find_min' hex hc
    have hkf : running (Nat.find hex) = false := Nat.find_spec hex
    have hpre : ∀ j, j < Nat.find hex → running j = true := by
      intro j hj
      cases h' : running j with
      | false => exact absurd h' (Nat.find_min hex hj)
      | true => rfl
    have hsplit := runLoop_cancel env running data 0 (Nat.find hex)
      (lt_of_le_of_lt hkN hN) (by simpa using hpre) (by simpa using hkf)
    constructor
    · rw [workerRun, hsplit]
      simp
    · refine ⟨Nat.find hex, hkN, hpre, ?_⟩
      rw [workerRun, hsplit, List.append_assoc]
      rfl

/-- Witness for the cancellation part of C3: one row, flag already false at
iteration 0. -/
theorem cancellation_stops_loop_witness :
    Event.log "Search cancelled." ∈ workerRun envMiss (fun _ => false) [rowDune] ∧
    ∃ k, k ≤ 0 ∧ (∀ j, j < k → (fun _ => false : Nat → Bool) j = true) ∧
      workerRun envMiss (fun _ => false) [rowDune] =
        runLoop envMiss (fun _ => false) ([rowDune].take k) 0 ++
          [Event.log "Search cancelled.", Event.complete] :=
  cancellation_stops_loop.2 envMiss (fun _ => false) [rowDune] 0 (by decide) rfl

/-- C4: a row whose title, author and identifier are all empty produces only
the "Skipping empty line." log: no navigation (no query URL loaded), no
result row, and no sleep of any kind (in particular no inter-row delay). -/
theorem empty_row_skipped (env : String → Page) :
    processEntry env ⟨"", "", ""⟩ = [Event.log "Skipping empty line."] ∧
    (processEntry env ⟨"", "", ""⟩).countP Event.isNav = 0 ∧
    (processEntry env ⟨"", "", ""⟩).countP Event.isRes = 0 ∧
    (processEntry env ⟨"", "", ""⟩).countP Event.isSleep = 0 := by
  have h : processEntry env ⟨"", "", ""⟩ = [Event.log "Skipping empty line."] := by
    simp [processEntry]
  refine ⟨h, ?_, ?_, ?_⟩ <;> rw [h] <;> rfl

/-- C5: a per-field lookup whose 1-second wait times out sleeps a randomized
3-9 second backoff, logs that the element was not found, and returns the
empty string instead of raising; consequently a page whose container loaded
with the average-price element missing but the price-range value non-empty
still yields a successful attempt, with the backoff sleep and the
field-not-found log in its trace. -/
theorem field_timeout_recovery (xpath : String) (pg : Page)
    (q t a i s : String) (hc : pg.containerLoads = true)
    (h1 : pg.avgPrice = none) (h2 : pg.priceRange = some s)
    (hs : strip s ≠ "") :
    get_aggregate_value xpath none =
      ("", [Event.sleep 3 9,
            Event.log ("Could not find element with xpath: " ++ xpath ++
                       ". Returning empty value.")]) ∧
    (perform_search pg q t a i).1 = true ∧
    Event.sleep 3 9 ∈ (perform_search pg q t a i).2 ∧
    Event.log ("Could not find element with xpath: " ++ xpathAvgPrice ++
               ". Returning empty value.") ∈ (perform_search pg q t a i).2 := by
  have hr : (get_aggregate_value xpathPriceRange pg.priceRange).1 = strip s := by
    rw [h2]; rfl
  have hne : ¬((get_aggregate_value xpathAvgPrice pg.avgPrice).1 = "" ∧
      (get_aggregate_value xpathPriceRange pg.priceRange).1 = "" ∧
      (get_aggregate_value xpathAvgShipping pg.avgShipping).1 = "" ∧
      (get_aggregate_value xpathTotalSellers pg.totalSellers).1 = "") := by
    rw [hr]
    rintro ⟨-, h, -⟩
    exact hs h
  refine ⟨rfl, ?_, ?_, ?_⟩
  · simp only [perform_search]
    rw [if_pos hc, if_neg hne]
  · simp only [perform_search]
    rw [if_pos hc, if_neg hne]
    simp [h1, get_aggregate_value]
  · simp only [perform_search]
    rw [if_pos hc, if_neg hne]
    simp [h1, get_aggregate_value]

/-- Witness for C5 at a concrete page: container loaded, average price
missing, price range "$5". -/
theorem field_timeout_recovery_witness :
    get_aggregate_value "xp" none =
      ("", [Event.sleep 3 9,
            Event.log ("Could not find element with xpath: " ++ "xp" ++
                       ". Returning empty value.")]) ∧
    (perform_search pageRangeOnly "q" "t" "a" "i").1 = true ∧
    Event.sleep 3 9 ∈ (perform_search pageRangeOnly "q" "t" "a" "i").2 ∧
    Event.log ("Could not find element with xpath: " ++ xpathAvgPrice ++
               ". Returning empty value.")
      ∈ (perform_search pageRangeOnly "q" "t" "a" "i").2 :=
  field_timeout_recovery "xp" pageRangeOnly "q" "t" "a" "i" "$5" rfl rfl rfl
    (by decide)

/-- C6: for the concrete row `("", "", "9780441013593")` in an environment
where the container never appears, no result is emitted, two navigations
occur — the container-level timeout counts as attempt failure and triggers
the fallback — the fallback query is the title+author concatenation, which
is exactly one space character, and both attempts are logged as having no
results. -/
theorem isbn_row_container_timeout :
    (processEntry envMiss rowIsbnOnly).countP Event.isRes = 0 ∧
    (processEntry envMiss rowIsbnOnly).countP Event.isNav = 2 ∧
    (rowIsbnOnly.title ++ " " ++ rowIsbnOnly.author : String) = " " ∧
    Event.navigate (searchUrl " ") ∈ processEntry envMiss rowIsbnOnly ∧
    Event.log "No results found for 9780441013593. Skipping."
      ∈ processEntry envMiss rowIsbnOnly ∧
    Event.log "No results found for  . Skipping."
      ∈ processEntry envMiss rowIsbnOnly := by
  decide

/-- C7: during input-file processing every expected data-shape error —
missing file, empty file, wrong format, DataFrame key/attribute errors, and
a successfully parsed file that lacks one of the three required columns —
is caught, produces exactly one log line, leaves the data untouched and is
not re-raised (`raised` is true exactly for the unexpected-exception
outcome), while an unexpected exception is logged in one line and then
re-raised. -/
theorem expected_errors_swallowed (fp msg : String) (cur : List BookQuery)
    (o : ParseOutcome) (df : DataFrame) :
    ((process_file fp o cur).raised = o.unexpectedErr) ∧
    (o.expectedErr = true →
      (process_file fp o cur).logs.length = 1 ∧
      (process_file fp o cur).raised = false ∧
      (process_file fp o cur).data = cur) ∧
    (("Title" ∉ df.columns ∨ "Author" ∉ df.columns ∨ "ISBN" ∉ df.columns) →
      (process_file fp (ParseOutcome.ok df) cur).logs.length = 1 ∧
      (process_file fp (ParseOutcome.ok df) cur).raised = false ∧
      (process_file fp (ParseOutcome.ok df) cur).data = cur) ∧
    ((process_file fp (ParseOutcome.unexpectedError msg) cur).logs.length = 1 ∧
     (process_file fp (ParseOutcome.unexpectedError msg) cur).raised = true) := by
  refine ⟨?_, ?_, ?_, rfl, rfl⟩
  · cases o with
    | ok df =>
        simp only [process_file]
        split <;> rfl
    | fileNotFound => rfl
    | emptyDataError => rfl
    | valueError => rfl
    | keyError m => rfl
    | attributeError m => rfl
    | unexpectedError m => rfl
  · intro he
    cases o with
    | ok df => simp [ParseOutcome.expectedErr] at he
    | unexpectedError m => simp [ParseOutcome.expectedErr] at he
    | fileNotFound => exact ⟨rfl, rfl, rfl⟩
    | emptyDataError => exact ⟨rfl, rfl, rfl⟩
    | valueError => exact ⟨rfl, rfl, rfl⟩
    | keyError m => exact ⟨rfl, rfl, rfl⟩
    | attributeError m => exact ⟨rfl, rfl, rfl⟩
  · intro hcols
    simp only [process_file]
    rw [if_pos hcols]
    exact ⟨rfl, rfl, rfl⟩

/-- Witness for C7 at the missing-file outcome and at a parsed file missing
the ISBN column, both with empty loaded data. -/
theorem expected_errors_swallowed_witness :
    ((process_file "books.xlsx" ParseOutcome.fileNotFound []).logs.length = 1 ∧
     (process_file "books.xlsx" ParseOutcome.fileNotFound []).raised = false ∧
     (process_file "books.xlsx" ParseOutcome.fileNotFound []).data = []) ∧
    ((process_file "books.xlsx" (ParseOutcome.ok dfNoIsbn) []).logs.length = 1 ∧
     (process_file "books.xlsx" (ParseOutcome.ok dfNoIsbn) []).raised = false ∧
     (process_file "books.xlsx" (ParseOutcome.ok dfNoIsbn) []).data = []) :=
  ⟨(expected_errors_swallowed "books.xlsx" "boom" [] ParseOutcome.fileNotFound
      dfNoIsbn).2.1 rfl,
   (expected_errors_swallowed "books.xlsx" "boom" [] (ParseOutcome.ok dfNoIsbn)
      dfNoIsbn).2.2.1 (by decide)⟩

/-- C8: exporting a non-empty results table of 7-cell rows yields a
DataFrame with exactly the seven output columns in order whose rows are the
table's rows in order with unchanged string values, and re-reading the
serialized file recovers that DataFrame unchanged (serialization itself is
modelled from the spec as a faithful round trip, being pandas code external
to the repository). -/
theorem export_reimport_roundtrip (table : List (List String))
    (hne : table ≠ []) (hlen : ∀ r ∈ table, r.length = 7) :
    ∃ df, (export_results table).1 = some df ∧
      read_excel (to_excel df) = df ∧
      df.columns = ["Title", "Author", "ISBN", "Avg Sold Price",
        "Sold Price Range", "Avg Shipping", "Total Sellers"] ∧
      df.rows = table.map (fun r => r.map some) := by
  refine ⟨⟨outputColumns,
    table.map fun r => (List.range 7).map fun c => some ((r.get? c).getD "")⟩,
    ?_, rfl, rfl, ?_⟩
  · rw [export_results, if_neg (by simp [List.length_eq_zero, hne])]
  · refine List.map_congr_left ?_
    intro r hr
    have h7 := hlen r hr
    calc (List.range 7).map (fun c => some ((r.get? c).getD ""))
        = ((List.range 7).map fun c => (r.get? c).getD "").map some := by
          rw [List.map_map]; rfl
      _ = r.map some := by rw [range_map_getD r 7 h7]

/-- Witness for C8 at a one-row table. -/
theorem export_reimport_roundtrip_witness :
    ∃ df, (export_results tableSample).1 = some df ∧
      read_excel (to_excel df) = df ∧
      df.columns = ["Title", "Author", "ISBN", "Avg Sold Price",
        "Sold Price Range", "Avg Shipping", "Total Sellers"] ∧
      df.rows = tableSample.map (fun r => r.map some) :=
  export_reimport_roundtrip tableSample (by decide) (by decide)

/-- C9: whenever input-file processing leaves the loaded row list changed,
the parse necessarily succeeded with a DataFrame containing the three
required columns and the new data is exactly the rows loaded from it; every
failing outcome leaves the previously loaded rows unchanged. -/
theorem loaded_data_preserved (fp : String) (o : ParseOutcome)
    (cur : List BookQuery) (h : (process_file fp o cur).data ≠ cur) :
    ∃ df, o = ParseOutcome.ok df ∧ "Title" ∈ df.columns ∧
      "Author" ∈ df.columns ∧ "ISBN" ∈ df.columns ∧
      (process_file fp o cur).data = loadedRows df := by
  cases o with
  | ok df =>
      by_cases hcols : "Title" ∉ df.columns ∨ "Author" ∉ df.columns ∨
        "ISBN" ∉ df.columns
      · exact absurd (by simp [process_file, hcols]) h
      · have hc := hcols
        push_neg at hc
        refine ⟨df, rfl, hc.1, hc.2.1, hc.2.2, ?_⟩
        simp [process_file, hcols]
  | fileNotFound => exact absurd rfl h
  | emptyDataError => exact absurd rfl h
  | valueError => exact absurd rfl h
  | keyError m => exact absurd rfl h
  | attributeError m => exact absurd rfl h
  | unexpectedError m => exact absurd rfl h

/-- Witness for C9 at a successful parse of a one-row spreadsheet replacing
an empty row list. -/
theorem loaded_data_preserved_witness :
    ∃ df, ParseOutcome.ok dfSample = ParseOutcome.ok df ∧
      "Title" ∈ df.columns ∧ "Author" ∈ df.columns ∧ "ISBN" ∈ df.columns ∧
      (process_file "books.xlsx" (ParseOutcome.ok dfSample) []).data =
        loadedRows df :=
  loaded_data_preserved "books.xlsx" (ParseOutcome.ok dfSample) [] (by decide)

/-- C10: every result row emitted during a run has exactly seven fields, and
its first three fields are the title, author and identifier of some input
row, copied verbatim — both attempts for a row pass the row's own original
fields, so this holds also when the match came from the secondary
title+author query. -/
theorem result_row_carries_input (env : String → Page) (running : Nat → Bool)
    (data : List BookQuery) (r : List String)
    (h : Event.result r ∈ workerRun env running data) :
    r.length = 7 ∧ ∃ b ∈ data, r.take 3 = [b.title, b.author, b.isbn] := by
  rw [workerRun] at h
  rcases List.mem_append.mp h with h | h
  · rcases runLoop_result_mem data 0 r h with ⟨b, hb, h7, h3⟩
    exact ⟨h7, b, hb, h3⟩
  · simp at h

/-- Witness for C10: the result emitted for `("Dune", "Frank Herbert", "")`
on a page showing only the average price. -/
theorem result_row_carries_input_witness :
    (["Dune", "Frank Herbert", "", "$12.50", "", "", ""] : List String).length = 7 ∧
    ∃ b ∈ [rowDune],
      (["Dune", "Frank Herbert", "", "$12.50", "", "", ""] : List String).take 3 =
        [b.title, b.author, b.isbn] :=
  result_row_carries_input envHit (fun _ => true) [rowDune]
    ["Dune", "Frank Herbert", "", "$12.50", "", "", ""] (by decide)
